import Mathlib

/-
Verification of the STAC raster-catalog script (stac_script_raster_2.py).

The script is a one-shot pipeline: read raster bounds, resolve a temporal
range from the TIFFTAG_DATETIME tag, build one STAC item with assets
(raster, optional QGIS style, thumbnail, legend), write the legend JSON,
save the catalog and rename the item file.  The embedding below translates
each step into executable Lean definitions; external library behaviour
(rasterio, pystac, matplotlib) is modelled only where the script observes
it: the bounds tuple, the tag dictionary lookup, the constant media-type
strings, and the on-disk paths of written files.
-/

namespace Stac

/-- Model of a Python datetime value as read or constructed by the script.
Only the six fields the script ever produces are carried (microsecond is
always zero for strptime without a fractional directive and for the
datetime constants, so it is omitted). -/
structure PyDateTime where
  year : Nat
  month : Nat
  day : Nat
  hour : Nat
  minute : Nat
  second : Nat
deriving DecidableEq, Repr

/-- Numeric key realising the lexicographic (field-wise) comparison Python
uses on datetime values; the radices 13, 32, 24, 60, 60 strictly bound the
corresponding fields of every datetime the script constructs, so key order
coincides with the Python order on those values. -/
def PyDateTime.key (d : PyDateTime) : Nat :=
  ((((d.year * 13 + d.month) * 32 + d.day) * 24 + d.hour) * 60 + d.minute) * 60 + d.second

/-- ASCII digit test returning the digit value, as used by the strptime
regular expression class \d (restricted to ASCII, which covers every input
the claims mention). -/
def digit? (c : Char) : Option Nat :=
  if 48 ≤ c.toNat ∧ c.toNat ≤ 57 then some (c.toNat - 48) else none

/-- Four mandatory digits: the CPython _strptime regex for the %Y directive. -/
def parse4Digits : List Char → Option (Nat × List Char)
  | a :: b :: c :: d :: rest =>
    match digit? a, digit? b, digit? c, digit? d with
    | some x, some y, some z, some w => some (x * 1000 + y * 100 + z * 10 + w, rest)
    | _, _, _, _ => none
  | _ => none

/-- Literal character in the format string (the colons of the format). -/
def matchChar (c : Char) : List Char → Option (List Char)
  | x :: rest => if x = c then some rest else none
  | [] => none

/-- Whitespace class of the strptime regex (a space in the format compiles
to one-or-more whitespace characters); the ASCII members of the class. -/
def isPySpace (c : Char) : Bool :=
  c == ' ' || c == '\t' || c == '\n' || c == '\r' || c == '\x0b' || c == '\x0c'

/-- One or more whitespace characters, matched greedily (the following
directive starts with a digit, so greediness never changes acceptance). -/
def matchSpaces1 : List Char → Option (List Char)
  | c :: rest => if isPySpace c then some (rest.dropWhile isPySpace) else none
  | [] => none

/-- The %m directive: CPython regex alternation 1[0-2], then 0[1-9], then
[1-9], tried left to right exactly as the regex engine does. -/
def matchMonth : List Char → Option (Nat × List Char)
  | c1 :: c2 :: rest =>
    (match digit? c1, digit? c2 with
    | some 1, some d2 => if d2 ≤ 2 then some (10 + d2, rest) else some (1, c2 :: rest)
    | some 0, some d2 => if 1 ≤ d2 then some (d2, rest) else none
    | some d1, _ => if 1 ≤ d1 then some (d1, c2 :: rest) else none
    | none, _ => none)
  | [c1] =>
    (match digit? c1 with
    | some d1 => if 1 ≤ d1 then some (d1, []) else none
    | none => none)
  | [] => none

/-- The %d directive: alternation 3[01], [12]\d, 0[1-9], [1-9]. -/
def matchDay : List Char → Option (Nat × List Char)
  | c1 :: c2 :: rest =>
    (match digit? c1, digit? c2 with
    | some 3, some d2 => if d2 ≤ 1 then some (30 + d2, rest) else some (3, c2 :: rest)
    | some 1, some d2 => some (10 + d2, rest)
    | some 2, some d2 => some (20 + d2, rest)
    | some 0, some d2 => if 1 ≤ d2 then some (d2, rest) else none
    | some d1, _ => if 1 ≤ d1 then some (d1, c2 :: rest) else none
    | none, _ => none)
  | [c1] =>
    (match digit? c1 with
    | some d1 => if 1 ≤ d1 then some (d1, []) else none
    | none => none)
  | [] => none

/-- The %H directive: alternation 2[0-3], [0-1]\d, \d. -/
def matchHour : List Char → Option (Nat × List Char)
  | c1 :: c2 :: rest =>
    (match digit? c1, digit? c2 with
    | some 2, some d2 => if d2 ≤ 3 then some (20 + d2, rest) else some (2, c2 :: rest)
    | some 0, some d2 => some (d2, rest)
    | some 1, some d2 => some (10 + d2, rest)
    | some d1, _ => some (d1, c2 :: rest)
    | none, _ => none)
  | [c1] =>
    (match digit? c1 with
    | some d1 => some (d1, [])
    | none => none)
  | [] => none

/-- The %M directive: alternation [0-5]\d, \d. -/
def matchMinute : List Char → Option (Nat × List Char)
  | c1 :: c2 :: rest =>
    (match digit? c1, digit? c2 with
    | some d1, some d2 => if d1 ≤ 5 then some (10 * d1 + d2, rest) else some (d1, c2 :: rest)
    | some d1, none => some (d1, c2 :: rest)
    | none, _ => none)
  | [c1] =>
    (match digit? c1 with
    | some d1 => some (d1, [])
    | none => none)
  | [] => none

/-- The %S directive: alternation 6[01], [0-5]\d, \d (leap seconds are
accepted by the regex and rejected later by the datetime constructor). -/
def matchSecond : List Char → Option (Nat × List Char)
  | c1 :: c2 :: rest =>
    (match digit? c1, digit? c2 with
    | some 6, some d2 => if d2 ≤ 1 then some (60 + d2, rest) else some (6, c2 :: rest)
    | some d1, some d2 => if d1 ≤ 5 then some (10 * d1 + d2, rest) else some (d1, c2 :: rest)
    | some d1, _ => some (d1, c2 :: rest)
    | none, _ => none)
  | [c1] =>
    (match digit? c1 with
    | some d1 => some (d1, [])
    | none => none)
  | [] => none

/-- Gregorian leap-year rule, as in the Python calendar logic backing the
datetime constructor. -/
def isLeapYear (y : Nat) : Bool :=
  y % 4 == 0 && (y % 100 != 0 || y % 400 == 0)

/-- Number of days of a month, used by the datetime constructor to validate
the day field. -/
def daysInMonth (y m : Nat) : Nat :=
  if m = 2 then (if isLeapYear y then 29 else 28)
  else if m = 4 ∨ m = 6 ∨ m = 9 ∨ m = 11 then 30
  else 31

/-- Model of datetime.strptime(s, "%Y:%m:%d %H:%M:%S"): the fixed-format
match of the compiled regex followed by the full-consumption check and the
range validation the datetime constructor performs (year at least 1, day
valid for the month, second at most 59).  Returns none exactly when the
Python call raises the ValueError the script catches. -/
def strptimeFixed (s : String) : Option PyDateTime := do
  let (y, r1) ← parse4Digits s.data
  let r2 ← matchChar ':' r1
  let (m, r3) ← matchMonth r2
  let r4 ← matchChar ':' r3
  let (d, r5) ← matchDay r4
  let r6 ← matchSpaces1 r5
  let (hh, r7) ← matchHour r6
  let r8 ← matchChar ':' r7
  let (mi, r9) ← matchMinute r8
  let r10 ← matchChar ':' r9
  let (ss, r11) ← matchSecond r10
  if r11 = [] ∧ 1 ≤ y ∧ d ≤ daysInMonth y m ∧ ss ≤ 59 then
    some ⟨y, m, d, hh, mi, ss⟩
  else none

/-- Fallback start constant: datetime(2023, 6, 1). -/
def fallbackStart : PyDateTime := ⟨2023, 6, 1, 0, 0, 0⟩

/-- Fallback end constant: datetime(2024, 3, 31). -/
def fallbackEnd : PyDateTime := ⟨2024, 3, 31, 0, 0, 0⟩

/-- Result of Step 2 of the script: both datetimes plus whether the
parse-failure warning was printed. -/
structure DateInfo where
  start_dt : PyDateTime
  end_dt : PyDateTime
  parseWarned : Bool
deriving DecidableEq, Repr

/-- Step 2 of the script.  The tag dictionary lookup yields an optional
string; the script tests it for truthiness (empty string counts as absent),
attempts the fixed-format parse inside try/except printing a warning on
failure, and finally substitutes the fallback pair whenever start_dt was
not assigned (a parsed datetime is always truthy in Python). -/
def setDateInfo (tag : Option String) : DateInfo :=
  match tag with
  | none => ⟨fallbackStart, fallbackEnd, false⟩
  | some s =>
    if s = "" then ⟨fallbackStart, fallbackEnd, false⟩
    else
      match strptimeFixed s with
      | some dt => ⟨dt, dt, false⟩
      | none => ⟨fallbackStart, fallbackEnd, true⟩

/-- Zero-padded two-digit field of datetime.isoformat. -/
def pad2 (n : Nat) : String :=
  if n < 10 then "0" ++ toString n else toString n

/-- Zero-padded four-digit year field of datetime.isoformat. -/
def pad4 (n : Nat) : String :=
  if n < 10 then "000" ++ toString n
  else if n < 100 then "00" ++ toString n
  else if n < 1000 then "0" ++ toString n
  else toString n

/-- Model of datetime.isoformat() for the values the script produces
(microsecond zero, no timezone info): YYYY-MM-DDTHH:MM:SS. -/
def PyDateTime.isoformat (d : PyDateTime) : String :=
  pad4 d.year ++ "-" ++ pad2 d.month ++ "-" ++ pad2 d.day ++ "T" ++
    pad2 d.hour ++ ":" ++ pad2 d.minute ++ ":" ++ pad2 d.second

/-- Hardcoded input raster path of the script. -/
def tif_path : String := "/home/vishnu/corestack_STAC/data/gobindpur_lulc_2023_2024.tif"

/-- Hardcoded QGIS style path of the script. -/
def qgis_style_path : String := "/home/vishnu/corestack_STAC/data/style_file.qml"

/-- Hardcoded catalog output directory of the script. -/
def output_dir : String := "/home/vishnu/corestack_STAC/output_catalog_lulc"

/-- Fixed item identifier of the script. -/
def item_id : String := "gobindpur-lulc"

/-- Model of os.path.join for one component on absolute POSIX paths without
trailing slashes, which is the only shape the script joins. -/
def pathJoin (a b : String) : String := a ++ "/" ++ b

/-- Split of a character list at every occurrence of a separator (the
splitting that os.path and href handling perform on the slash). -/
def splitOnChar (sep : Char) : List Char → List (List Char)
  | [] => [[]]
  | c :: rest =>
    match splitOnChar sep rest with
    | [] => [[]]
    | h :: t => if c = sep then [] :: h :: t else (c :: h) :: t

/-- Model of os.path.dirname on the absolute POSIX paths of the script. -/
def dirname (p : String) : String :=
  String.intercalate "/" (((splitOnChar '/' p.data).map String.mk).dropLast)

/-- Directory of the single item: os.path.join(output_dir, item_id). -/
def item_dir : String := pathJoin output_dir item_id

/-- Data directory: os.path.dirname(tif_path). -/
def data_dir : String := dirname tif_path

/-- Thumbnail output path: os.path.join(data_dir, "thumbnail.png"). -/
def thumb_path : String := pathJoin data_dir "thumbnail.png"

/-- Legend output path: os.path.join(data_dir, "legend.json"). -/
def legend_path : String := pathJoin data_dir "legend.json"

/-- Default item file the library writes: os.path.join(item_dir, "item.json"). -/
def default_item_path : String := pathJoin item_dir "item.json"

/-- Caller-chosen item file name: os.path.join(item_dir, item_id + ".json"). -/
def custom_item_path : String := pathJoin item_dir (item_id ++ ".json")

/-- Spatial bounds of the raster as rasterio reports them (left, bottom,
right, top).  The script copies these values without arithmetic, so the
coordinate type is taken to be Int. -/
structure Bounds where
  left : Int
  bottom : Int
  right : Int
  top : Int
deriving DecidableEq, Repr

/-- Environment of one run: everything the script reads from the outside
world that the claims depend on - the raster bounds, the optional
TIFFTAG_DATETIME tag value, and whether the style file exists on disk. -/
structure Env where
  bounds : Bounds
  tiffTagDateTime : Option String
  styleFileExists : Bool
deriving DecidableEq, Repr

/-- GeoJSON geometry produced by mapping(box(...)): a type string and the
list of linear rings of integer coordinate pairs. -/
structure Geometry where
  type : String
  coordinates : List (List (Int × Int))
deriving DecidableEq, Repr

/-- Model of shapely.geometry.box(minx, miny, maxx, maxy) followed by
mapping: the counter-clockwise exterior ring starting at (maxx, miny) and
closed with a repeat of the first vertex. -/
def shapelyBox (minx miny maxx maxy : Int) : Geometry :=
  ⟨"Polygon", [[(maxx, miny), (maxx, maxy), (minx, maxy), (minx, miny), (maxx, miny)]]⟩

/-- STAC asset as the script constructs it: href, media type, roles, title. -/
structure Asset where
  href : String
  media_type : String
  roles : List String
  title : String
deriving DecidableEq, Repr

/-- One classification entry of the LULC legend (a \x7b"value", "name"\x7d
dictionary in the script). -/
structure LulcClass where
  value : Int
  name : String
deriving DecidableEq, Repr

/-- The fixed classification list of Step 7 of the script. -/
def lulc_classes : List LulcClass :=
  [⟨1, "Water"⟩, ⟨2, "Urban"⟩, ⟨3, "Forest"⟩, ⟨4, "Cropland"⟩, ⟨5, "Barren"⟩]

/-- STAC item as the script populates it: identifier, geometry, bbox,
primary datetime, the two datetime properties, the classification property
added in Step 7, and the ordered asset mapping. -/
structure Item where
  id : String
  geometry : Geometry
  bbox : List Int
  datetime : PyDateTime
  start_datetime : String
  end_datetime : String
  classification_classes : List LulcClass
  assets : List (String × Asset)
deriving DecidableEq, Repr

/-- The raster asset of Step 4 (pystac.MediaType.GEOTIFF is the constant
string "image/tiff; application=geotiff"). -/
def rasterAsset : Asset :=
  ⟨"../../data/gobindpur_lulc_2023_2024.tif", "image/tiff; application=geotiff",
    ["data", "download"], "Gobindpur LULC Raster (GeoTIFF)"⟩

/-- The optional style asset of Step 5. -/
def styleAsset : Asset :=
  ⟨"../../data/style_file.qml", "application/xml", ["style", "download"],
    "QGIS Style File (QML)"⟩

/-- The thumbnail asset of Step 6. -/
def thumbnailAsset : Asset :=
  ⟨"../../data/thumbnail.png", "image/png", ["thumbnail"], "Thumbnail Preview"⟩

/-- The legend asset of Step 7. -/
def legendAsset : Asset :=
  ⟨"../../data/legend.json", "application/json", ["legend"], "LULC Legend (JSON)"⟩

/-- Warning printed when the datetime tag fails to parse (Step 2). -/
def parseWarningMsg : String := "Failed to parse TIFFTAG_DATETIME"

/-- Warning printed when the style file is missing (Step 5). -/
def qmlWarningMsg : String := "QML file not found. Skipping style asset."

/-- Catalog identifier of Step 3. -/
def catalogId : String := "gobindpur-lulc-catalog"

/-- Catalog description of Step 3. -/
def catalogDescription : String :=
  "STAC Catalog for Gobindpur LULC 2023-24 with metadata and thumbnail"

/-- JSON values as far as the legend file needs them: integers, strings,
arrays and objects.  Python booleans, null, floats and string escapes never
occur in the legend data, so they are outside the model. -/
inductive Json where
  | jnum : Int → Json
  | jstr : String → Json
  | jarr : List Json → Json
  | jobj : List (String × Json) → Json

/-- String escaping of json.dump for the characters that can occur here
(double quote, backslash, and the common control characters). -/
def jsonEscapeChar (c : Char) : String :=
  if c = '"' then "\\\""
  else if c = '\\' then "\\\\"
  else if c = '\n' then "\\n"
  else if c = '\t' then "\\t"
  else if c = '\r' then "\\r"
  else String.singleton c

/-- Quoted JSON string literal. -/
def jsonQuote (s : String) : String :=
  "\"" ++ String.join (s.data.map jsonEscapeChar) ++ "\""

/-- Run of n spaces, for the indent of json.dump. -/
def spacesN (n : Nat) : String := String.mk (List.replicate n ' ')

/-- Serializer of json.dump(obj, f, indent=2): each nesting level indents
by two further spaces, members are separated by a comma plus newline, and
a key is followed by a colon and one space.  The first argument is fuel
bounding the nesting depth (structural recursion through nested lists). -/
def dumpsFuel : Nat → Nat → Json → String
  | 0, _, _ => ""
  | f + 1, ind, j =>
    match j with
    | .jnum n => toString n
    | .jstr s => jsonQuote s
    | .jarr [] => "[]"
    | .jarr xs =>
      "[\n" ++
        String.intercalate ",\n"
          (xs.map (fun x => spacesN (ind + 2) ++ dumpsFuel f (ind + 2) x)) ++
        "\n" ++ spacesN ind ++ "]"
    | .jobj [] => "\x7b\x7d"
    | .jobj ms =>
      "\x7b\n" ++
        String.intercalate ",\n"
          (ms.map (fun m => spacesN (ind + 2) ++ jsonQuote m.1 ++ ": " ++
            dumpsFuel f (ind + 2) m.2)) ++
        "\n" ++ spacesN ind ++ "\x7d"

/-- Top-level json.dump with indent=2.  The fuel 32 strictly exceeds the
nesting depth of every value the script serializes (the legend value nests
three levels: array, object, scalar), so the bound never truncates. -/
def jsonDump2 (j : Json) : String := dumpsFuel 32 0 j

/-- JSON encoding of the classification list exactly as the script builds
the Python value passed to json.dump. -/
def lulcJson : Json :=
  Json.jarr (lulc_classes.map (fun c =>
    Json.jobj [("value", Json.jnum c.value), ("name", Json.jstr c.name)]))

/-- Content written to legend.json by Step 7. -/
def legendContentStr : String := jsonDump2 lulcJson

/-- JSON whitespace skipper of the reader. -/
def skipWs (s : List Char) : List Char :=
  s.dropWhile (fun c => c == ' ' || c == '\t' || c == '\n' || c == '\r')

/-- Body of a JSON string literal up to the closing quote; escape sequences
never occur in the legend file, so a backslash is rejected. -/
def parseStringBody : List Char → Option (String × List Char)
  | '"' :: rest => some ("", rest)
  | '\\' :: _ => none
  | c :: rest =>
    (parseStringBody rest).map (fun p => (String.singleton c ++ p.1, p.2))
  | [] => none

/-- Maximal run of ASCII digits interpreted as a natural number. -/
def parseDigits (s : List Char) : Option (Nat × List Char) :=
  let ds := s.takeWhile (fun c => 48 ≤ c.toNat ∧ c.toNat ≤ 57)
  if ds = [] then none
  else some (ds.foldl (fun acc c => acc * 10 + (c.toNat - 48)) 0,
    s.dropWhile (fun c => 48 ≤ c.toNat ∧ c.toNat ≤ 57))

/-- Parsing mode: a single value, the tail of an array, or the tail of an
object (the three mutually recursive productions of the JSON grammar). -/
inductive PMode where
  | value : PMode
  | elems : PMode
  | members : PMode
deriving DecidableEq, Repr

/-- Recursive-descent JSON reader (json.load restricted to the grammar of
the legend file: integers, strings, arrays, objects, whitespace).  The fuel
argument bounds the recursion; the modes elems and members return the
remaining elements already wrapped as jarr and jobj. -/
def parseJ : Nat → PMode → List Char → Option (Json × List Char)
  | 0, _, _ => none
  | f + 1, PMode.value, s =>
    (match skipWs s with
    | '"' :: rest => (parseStringBody rest).map (fun p => (Json.jstr p.1, p.2))
    | '[' :: rest =>
      (match skipWs rest with
      | ']' :: r2 => some (Json.jarr [], r2)
      | r2 => parseJ f PMode.elems r2)
    | '\x7b' :: rest =>
      (match skipWs rest with
      | '\x7d' :: r2 => some (Json.jobj [], r2)
      | r2 => parseJ f PMode.members r2)
    | '-' :: rest => (parseDigits rest).map (fun p => (Json.jnum (-(p.1 : Int)), p.2))
    | s2 => (parseDigits s2).map (fun p => (Json.jnum ((p.1 : Nat) : Int), p.2)))
  | f + 1, PMode.elems, s => do
    let (v, r1) ← parseJ f PMode.value s
    match skipWs r1 with
    | ',' :: r2 => do
      let (restJ, r3) ← parseJ f PMode.elems r2
      match restJ with
      | Json.jarr vs => some (Json.jarr (v :: vs), r3)
      | _ => none
    | ']' :: r2 => some (Json.jarr [v], r2)
    | _ => none
  | f + 1, PMode.members, s =>
    (match skipWs s with
    | '"' :: rest => do
      let (k, r1) ← parseStringBody rest
      match skipWs r1 with
      | ':' :: r2 => do
        let (v, r3) ← parseJ f PMode.value r2
        match skipWs r3 with
        | ',' :: r4 => do
          let (restJ, r5) ← parseJ f PMode.members r4
          match restJ with
          | Json.jobj ms => some (Json.jobj ((k, v) :: ms), r5)
          | _ => none
        | '\x7d' :: r4 => some (Json.jobj [(k, v)], r4)
        | _ => none
      | _ => none
    | _ => none)

/-- Whole-document JSON read: one value and only trailing whitespace after
it, as json.load requires. -/
def parseJsonTop (s : String) : Option Json :=
  match parseJ (s.length + 1) PMode.value s.data with
  | some (j, rest) => if skipWs rest = [] then some j else none
  | none => none

/-- Decoder of one legend entry back into a classification pair. -/
def decodeClass : Json → Option LulcClass
  | Json.jobj [("value", Json.jnum v), ("name", Json.jstr n)] => some ⟨v, n⟩
  | _ => none

/-- Decoder of the whole legend document. -/
def decodeClasses : Json → Option (List LulcClass)
  | Json.jarr xs => xs.mapM decodeClass
  | _ => none

/-- Components of a POSIX path, empty segments dropped. -/
def splitPath (p : String) : List String :=
  ((splitOnChar '/' p.data).map String.mk).filter (fun c => c ≠ "")

/-- Resolution of a relative href against an absolute base directory, as a
STAC reader does (normalising the ".." segments of the href). -/
def resolveParts (base : List String) (href : String) : List String :=
  (splitPath href).foldl
    (fun acc c => if c = ".." then acc.dropLast else if c = "." then acc else acc ++ [c])
    base

/-- Resolved absolute path of a relative href. -/
def resolveHref (baseDir href : String) : String :=
  "/" ++ String.intercalate "/" (resolveParts (splitPath baseDir) href)

/-- Result of one run of the script: the catalog fields, its items, the
warnings printed, the files written into the data directory, and the text
written to legend.json. -/
structure RunResult where
  catalog_id : String
  catalog_description : String
  items : List Item
  warnings : List String
  filesWritten : List String
  legendContent : String
deriving DecidableEq, Repr

/-- Steps 1 to 7 as far as the single item is concerned: bbox and geometry
from the bounds, dates from Step 2, the two datetime properties with the
literal "Z" suffix, the classification property, and the assets in
insertion order (raster, optional style, thumbnail, legend). -/
def buildItem (env : Env) : Item :=
  let di := setDateInfo env.tiffTagDateTime
  ⟨item_id,
   shapelyBox env.bounds.left env.bounds.bottom env.bounds.right env.bounds.top,
   [env.bounds.left, env.bounds.bottom, env.bounds.right, env.bounds.top],
   di.start_dt,
   di.start_dt.isoformat ++ "Z",
   di.end_dt.isoformat ++ "Z",
   lulc_classes,
   [("raster-data", rasterAsset)] ++
     (if env.styleFileExists then [("qgis-style", styleAsset)] else []) ++
     [("thumbnail", thumbnailAsset), ("legend", legendAsset)]⟩

/-- The whole run: the catalog of Step 3 holding the single item, the
warnings of Steps 2 and 5 in print order, the two files written into the
data directory (thumbnail of Step 6, legend of Step 7), and the legend
text. -/
def runPipeline (env : Env) : RunResult :=
  let di := setDateInfo env.tiffTagDateTime
  ⟨catalogId,
   catalogDescription,
   [buildItem env],
   (if di.parseWarned then [parseWarningMsg] else []) ++
     (if env.styleFileExists then [] else [qmlWarningMsg]),
   [thumb_path, legend_path],
   legendContentStr⟩

/-- Final rename step of the script over the filesystem modelled as a list
of existing paths: when the default item file exists it is renamed to the
caller-chosen name (os.rename replaces an existing destination); when it
does not exist the step does nothing and no error is raised. -/
def renameItemFile (fs : List String) : List String :=
  if default_item_path ∈ fs then
    custom_item_path :: fs.filter (fun p => p ≠ default_item_path ∧ p ≠ custom_item_path)
  else fs

/-- Case analysis of Step 2: either the tag string parsed, and both dates
equal the parsed value with no warning, or the combined lookup-and-parse
failed, and both dates are the fallback constants (the warning flag
recording whether a parse was attempted and failed). -/
theorem setDateInfo_cases (tag : Option String) :
    (∃ dt, tag.bind strptimeFixed = some dt ∧ setDateInfo tag = ⟨dt, dt, false⟩) ∨
    (tag.bind strptimeFixed = none ∧
      (setDateInfo tag = ⟨fallbackStart, fallbackEnd, false⟩ ∨
       setDateInfo tag = ⟨fallbackStart, fallbackEnd, true⟩)) := by
  cases tag with
  | none => exact Or.inr ⟨rfl, Or.inl rfl⟩
  | some s =>
    by_cases hs : s = ""
    · subst hs
      exact Or.inr ⟨rfl, Or.inl rfl⟩
    · cases hp : strptimeFixed s with
      | some dt =>
        refine Or.inl ⟨dt, hp, ?_⟩
        simp [setDateInfo, hs, hp]
      | none =>
        refine Or.inr ⟨hp, Or.inr ?_⟩
        simp [setDateInfo, hs, hp]

/-- C1: if the TIFFTAG_DATETIME tag is present and parses under the fixed
format, start_dt and end_dt both equal the parsed datetime; for any other
tag value (absent or malformed) they equal the fixed constants
datetime(2023, 6, 1) and datetime(2024, 3, 31), the first strictly before
the second. -/
theorem c1_date_resolution (tag : Option String) :
    (∀ s dt, tag = some s → strptimeFixed s = some dt →
      (setDateInfo tag).start_dt = dt ∧ (setDateInfo tag).end_dt = dt) ∧
    (tag.bind strptimeFixed = none →
      (setDateInfo tag).start_dt = fallbackStart ∧
      (setDateInfo tag).end_dt = fallbackEnd ∧
      fallbackStart.key < fallbackEnd.key) := by
  constructor
  · intro s dt hts hp
    subst hts
    rcases setDateInfo_cases (some s) with ⟨dt2, hb, he⟩ | ⟨hb, _⟩
    · have hss : strptimeFixed s = some dt2 := hb
      rw [hp] at hss
      have hdd : dt2 = dt := (Option.some.inj hss).symm
      subst hdd
      exact ⟨by rw [he], by rw [he]⟩
    · exfalso
      have hsn : strptimeFixed s = none := hb
      rw [hp] at hsn
      exact Option.noConfusion hsn
  · intro hb
    rcases setDateInfo_cases tag with ⟨dt, hb2, _⟩ | ⟨_, he | he⟩
    · rw [hb] at hb2
      exact Option.noConfusion hb2
    · exact ⟨by rw [he], by rw [he], by decide⟩
    · exact ⟨by rw [he], by rw [he], by decide⟩

/-- Witness for C1: the parsed branch at the concrete tag of the raster and
the fallback branch at an absent tag. -/
theorem c1_date_resolution_witness :
    (setDateInfo (some "2023:06:15 00:00:00")).start_dt = ⟨2023, 6, 15, 0, 0, 0⟩ ∧
    (setDateInfo none).start_dt = fallbackStart ∧
    (setDateInfo none).end_dt = fallbackEnd :=
  ⟨((c1_date_resolution (some "2023:06:15 00:00:00")).1 "2023:06:15 00:00:00"
      ⟨2023, 6, 15, 0, 0, 0⟩ rfl (by decide)).1,
   ((c1_date_resolution none).2 rfl).1,
   ((c1_date_resolution none).2 rfl).2.1⟩

/-- C9: for every possible tag value the resolver yields both dates (one
complete outcome, never a partial one): exactly one of parsed-pair or
fallback-pair holds, and start_dt is at most end_dt. -/
theorem c9_temporal_invariant (tag : Option String) :
    (setDateInfo tag).start_dt.key ≤ (setDateInfo tag).end_dt.key ∧
    (((setDateInfo tag).start_dt = (setDateInfo tag).end_dt ∧
        tag.bind strptimeFixed = some (setDateInfo tag).start_dt) ∨
      ((setDateInfo tag).start_dt = fallbackStart ∧
        (setDateInfo tag).end_dt = fallbackEnd ∧ tag.bind strptimeFixed = none)) ∧
    ¬(((setDateInfo tag).start_dt = (setDateInfo tag).end_dt ∧
        tag.bind strptimeFixed = some (setDateInfo tag).start_dt) ∧
      ((setDateInfo tag).start_dt = fallbackStart ∧
        (setDateInfo tag).end_dt = fallbackEnd ∧ tag.bind strptimeFixed = none)) := by
  rcases setDateInfo_cases tag with ⟨dt, hb, he⟩ | ⟨hb, he | he⟩
  · rw [he]
    refine ⟨le_refl _, Or.inl ⟨rfl, hb⟩, ?_⟩
    rintro ⟨-, -, -, hn⟩
    rw [hb] at hn
    exact Option.noConfusion hn
  · rw [he]
    refine ⟨by decide, Or.inr ⟨rfl, rfl, hb⟩, ?_⟩
    rintro ⟨⟨-, hsome⟩, -⟩
    rw [hb] at hsome
    exact Option.noConfusion hsome
  · rw [he]
    refine ⟨by decide, Or.inr ⟨rfl, rfl, hb⟩, ?_⟩
    rintro ⟨⟨-, hsome⟩, -⟩
    rw [hb] at hsome
    exact Option.noConfusion hsome

/-- C10: a present-but-empty tag is treated by the truthiness test exactly
like an absent tag: no parse attempt, no warning, fallback range. -/
theorem c10_empty_tag_silent_fallback :
    setDateInfo (some "") = setDateInfo none ∧
    (setDateInfo (some "")).start_dt = fallbackStart ∧
    (setDateInfo (some "")).end_dt = fallbackEnd ∧
    (setDateInfo (some "")).parseWarned = false :=
  ⟨rfl, rfl, rfl, rfl⟩

/-- C2: with bounds (10, 20, 30, 40), tag "2023:06:15 00:00:00" and an
existing style file, the run yields a catalog with exactly one item of id
gobindpur-lulc, bbox [10, 20, 30, 40], both datetime properties equal to
"2023-06-15T00:00:00Z", and exactly the four assets raster-data,
qgis-style, thumbnail, legend. -/
theorem c2_end_to_end :
    (runPipeline ⟨⟨10, 20, 30, 40⟩, some "2023:06:15 00:00:00", true⟩).items.length = 1 ∧
    (runPipeline ⟨⟨10, 20, 30, 40⟩, some "2023:06:15 00:00:00", true⟩).items.map Item.id =
      ["gobindpur-lulc"] ∧
    (runPipeline ⟨⟨10, 20, 30, 40⟩, some "2023:06:15 00:00:00", true⟩).items.map Item.bbox =
      [[10, 20, 30, 40]] ∧
    (runPipeline ⟨⟨10, 20, 30, 40⟩, some "2023:06:15 00:00:00", true⟩).items.map
        Item.start_datetime = ["2023-06-15T00:00:00Z"] ∧
    (runPipeline ⟨⟨10, 20, 30, 40⟩, some "2023:06:15 00:00:00", true⟩).items.map
        Item.end_datetime = ["2023-06-15T00:00:00Z"] ∧
    (runPipeline ⟨⟨10, 20, 30, 40⟩, some "2023:06:15 00:00:00", true⟩).items.map
        (fun it => it.assets.map Prod.fst) =
      [["raster-data", "qgis-style", "thumbnail", "legend"]] := by
  decide

/-- C3: for every raster input, the bbox of the single produced item is
[left, bottom, right, top] taken from the bounds in that order, and its
geometry is the rectangular polygon built from that same box. -/
theorem c3_bbox_geometry (env : Env) :
    (runPipeline env).items.map Item.bbox =
      [[env.bounds.left, env.bounds.bottom, env.bounds.right, env.bounds.top]] ∧
    (runPipeline env).items.map Item.geometry =
      [shapelyBox env.bounds.left env.bounds.bottom env.bounds.right env.bounds.top] :=
  ⟨rfl, rfl⟩

/-- C4: the item always carries the raster-data asset; it carries the
qgis-style asset exactly when the style file exists, and when the file is
missing the run continues, recording the non-fatal skip warning. -/
theorem c4_style_asset_conditional (env : Env) :
    "raster-data" ∈ (buildItem env).assets.map Prod.fst ∧
    ("qgis-style" ∈ (buildItem env).assets.map Prod.fst ↔ env.styleFileExists = true) ∧
    (qmlWarningMsg ∈ (runPipeline env).warnings ↔ env.styleFileExists = false) := by
  obtain ⟨b, tag, st⟩ := env
  cases st <;> cases hw : (setDateInfo tag).parseWarned <;>
    simp [buildItem, runPipeline, hw, qmlWarningMsg, parseWarningMsg]

/-- C5: the thumbnail and legend assets are always present, and each of
their hrefs, resolved against the item directory, is exactly the data-dir
path that the run writes (thumbnail.png and legend.json). -/
theorem c5_thumbnail_legend_resolve (env : Env) :
    (buildItem env).assets.lookup "thumbnail" = some thumbnailAsset ∧
    (buildItem env).assets.lookup "legend" = some legendAsset ∧
    resolveHref item_dir thumbnailAsset.href = thumb_path ∧
    resolveHref item_dir legendAsset.href = legend_path ∧
    thumb_path ∈ (runPipeline env).filesWritten ∧
    legend_path ∈ (runPipeline env).filesWritten := by
  obtain ⟨b, tag, st⟩ := env
  cases st
  · exact ⟨rfl, rfl, by decide, by decide, List.Mem.head _, List.Mem.tail _ (List.Mem.head _)⟩
  · exact ⟨rfl, rfl, by decide, by decide, List.Mem.head _, List.Mem.tail _ (List.Mem.head _)⟩

set_option maxRecDepth 8192 in
/-- C6: reading the written legend.json back yields exactly the fixed
five-entry classification list in order, and the same list is stored in the
classification property of the item. -/
theorem c6_legend_roundtrip (env : Env) :
    (runPipeline env).legendContent = legendContentStr ∧
    (parseJsonTop legendContentStr).bind decodeClasses = some lulc_classes ∧
    lulc_classes.length = 5 ∧
    (runPipeline env).items.map Item.classification_classes = [lulc_classes] := by
  refine ⟨rfl, ?_, rfl, rfl⟩
  decide

/-- C7: the datetime string properties of the item are the isoformat
renderings of start_dt and end_dt, each with a literal Z appended, and the
primary datetime of the item is start_dt. -/
theorem c7_datetime_properties (env : Env) :
    (runPipeline env).items.map Item.start_datetime =
      [(setDateInfo env.tiffTagDateTime).start_dt.isoformat ++ "Z"] ∧
    (runPipeline env).items.map Item.end_datetime =
      [(setDateInfo env.tiffTagDateTime).end_dt.isoformat ++ "Z"] ∧
    (runPipeline env).items.map Item.datetime =
      [(setDateInfo env.tiffTagDateTime).start_dt] :=
  ⟨rfl, rfl, rfl⟩

/-- C8: when the library-default item file exists it is renamed to the
caller-chosen name; when it does not, the step leaves the filesystem
untouched and the (total) run still completes. -/
theorem c8_rename_step (fs : List String) :
    (default_item_path ∈ fs →
      custom_item_path ∈ renameItemFile fs ∧ default_item_path ∉ renameItemFile fs) ∧
    (default_item_path ∉ fs → renameItemFile fs = fs) := by
  constructor
  · intro h
    rw [renameItemFile, if_pos h]
    refine ⟨List.Mem.head _, ?_⟩
    intro hmem
    rcases List.mem_cons.mp hmem with heq | hmemf
    · exact absurd heq (by decide)
    · have h2 := (List.mem_filter.mp hmemf).2
      have h3 : default_item_path ≠ default_item_path ∧ default_item_path ≠ custom_item_path :=
        of_decide_eq_true h2
      exact h3.1 rfl
  · intro h
    rw [renameItemFile, if_neg h]

/-- Witness for C8: a filesystem holding only the default item file is
renamed; a filesystem without it is left unchanged. -/
theorem c8_rename_step_witness :
    custom_item_path ∈ renameItemFile [default_item_path] ∧
    default_item_path ∉ renameItemFile [default_item_path] ∧
    renameItemFile ["other"] = ["other"] :=
  ⟨((c8_rename_step [default_item_path]).1 (List.Mem.head _)).1,
   ((c8_rename_step [default_item_path]).1 (List.Mem.head _)).2,
   (c8_rename_step ["other"]).2 (by decide)⟩

/-- Witness for C3 at a concrete run. -/
theorem c3_bbox_geometry_witness :
    (runPipeline ⟨⟨1, 2, 3, 4⟩, none, false⟩).items.map Item.bbox = [[1, 2, 3, 4]] ∧
    (runPipeline ⟨⟨1, 2, 3, 4⟩, none, false⟩).items.map Item.geometry =
      [shapelyBox 1 2 3 4] :=
  c3_bbox_geometry ⟨⟨1, 2, 3, 4⟩, none, false⟩

/-- Witness for C4 at a concrete run with the style file present. -/
theorem c4_style_asset_conditional_witness :
    "raster-data" ∈ (buildItem ⟨⟨0, 0, 0, 0⟩, none, true⟩).assets.map Prod.fst :=
  (c4_style_asset_conditional ⟨⟨0, 0, 0, 0⟩, none, true⟩).1

/-- Witness for C5 at a concrete run without the style file. -/
theorem c5_thumbnail_legend_resolve_witness :
    (buildItem ⟨⟨0, 0, 0, 0⟩, none, false⟩).assets.lookup "thumbnail" = some thumbnailAsset ∧
    resolveHref item_dir thumbnailAsset.href = thumb_path :=
  ⟨(c5_thumbnail_legend_resolve ⟨⟨0, 0, 0, 0⟩, none, false⟩).1,
   (c5_thumbnail_legend_resolve ⟨⟨0, 0, 0, 0⟩, none, false⟩).2.2.1⟩

/-- Witness for C6 at a concrete run. -/
theorem c6_legend_roundtrip_witness :
    (parseJsonTop legendContentStr).bind decodeClasses = some lulc_classes :=
  (c6_legend_roundtrip ⟨⟨0, 0, 0, 0⟩, none, false⟩).2.1

/-- Witness for C7 at a concrete run with an absent tag. -/
theorem c7_datetime_properties_witness :
    (runPipeline ⟨⟨0, 0, 0, 0⟩, none, false⟩).items.map Item.start_datetime =
      [(setDateInfo none).start_dt.isoformat ++ "Z"] :=
  (c7_datetime_properties ⟨⟨0, 0, 0, 0⟩, none, false⟩).1

/-- Witness for C9 at an absent tag. -/
theorem c9_temporal_invariant_witness :
    (setDateInfo none).start_dt.key ≤ (setDateInfo none).end_dt.key :=
  (c9_temporal_invariant none).1

end Stac
